import Mathlib

/-!
Shallow embedding of the SEO analyzer (src/app.py) and proofs about it.

The program crawls a sitemap hierarchy, fetches pages, extracts SEO
metadata (title, meta description, H1, canonical link, robots directives),
buckets pages into categories by URL-path pattern, and assembles a
multi-sheet spreadsheet report plus summary statistics.

Python strings are Lean `String`s; Python dicts that the code builds with a
fixed literal key set are association lists `List (String × _)` read through
`List.lookup`/`getD`, mirroring `dict.get(key, default)`.  HTML parsing by
BeautifulSoup is not re-implemented: a parsed document is a `Soup` value
holding exactly the tag data `extract_metadata` queries (title texts inside
`<head>`, all `<meta>` name/content attributes, all `<h1>` texts, all
`<link>` rel/href attributes), and a parse that raised is `SoupInput.exn`.
Network fetches are an oracle `Nat → FetchResult` giving each retry
attempt's outcome.
-/

namespace SEO

/-- Python value stored in one record cell: the code mixes strings (URLs,
metadata, the sentinel "Error"), ints (status code, redirect count) and
`None` (initial `status_code = None`). -/
inductive CellVal where
  | str (s : String)
  | int (n : Nat)
  | pynone
deriving DecidableEq, Repr

/-- Python `str(v)` on a cell value (`str(None) = "None"`). -/
def strOfCell : CellVal → String
  | .str s => s
  | .int n => toString n
  | .pynone => "None"

/-- Python list containment of char lists: `pat` occurs contiguously in the
second argument.  Embeds the Python substring test `pat in hay`. -/
def containsList (pat : List Char) : List Char → Bool
  | [] => pat.isEmpty
  | c :: t => pat.isPrefixOf (c :: t) || containsList pat t

/-- Python `pat in hay` on strings (contiguous substring test). -/
def pyIn (pat hay : String) : Bool := containsList pat.toList hay.toList

/-- Python `s.strip()`: leading and trailing whitespace removed. -/
def pyStrip (s : String) : String :=
  String.mk (((s.toList.dropWhile Char.isWhitespace).reverse.dropWhile
    Char.isWhitespace).reverse)

/-- Python `s.lower()` (the code's robots contents are ASCII). -/
def pyLower (s : String) : String := String.mk (s.toList.map Char.toLower)

/-- Python `s[:n]` (slicing by code points). -/
def pySlice (s : String) (n : Nat) : String := String.mk (s.toList.take n)

/-- One `<meta>` tag as BeautifulSoup hands it to the code: its `name` and
`content` attributes, each possibly absent (`tag.get` returns `None`). -/
structure MetaTag where
  name : Option String
  content : Option String
deriving DecidableEq, Repr

/-- One `<link>` tag: its `rel` and `href` attributes. -/
structure LinkTag where
  rel : Option String
  href : Option String
deriving DecidableEq, Repr

/-- A parsed HTML document, restricted to what `extract_metadata` reads:
`headTitles = some ts` means `soup.find('head')` succeeded and `ts` are the
texts of the `<title>` tags inside it in document order (`none`: no
`<head>`); `metas`, `h1s` (texts of all `<h1>` tags) and `links` list the
whole document in order. -/
structure Soup where
  headTitles : Option (List String)
  metas : List MetaTag
  h1s : List String
  links : List LinkTag
deriving DecidableEq, Repr

/-- Input to `extract_metadata`: a parsed soup, or a parse that raised an
exception whose `str(e)` is `msg` (the code catches any `Exception`). -/
inductive SoupInput where
  | ok (s : Soup)
  | exn (msg : String)
deriving DecidableEq, Repr

/-- Python `"\n".join([f"{i+1}. {v}" for i, v in enumerate(vals)])`: the
numbered listing used for every multi-occurrence field. -/
def numbered (vals : List String) : String :=
  String.intercalate "\n" (vals.enum.map (fun p => toString (p.1 + 1) ++ ". " ++ p.2))

/-- `titles = [tag.text.strip() for tag in head.find_all('title') if tag.text
and tag.text.strip()]`, and `[]` when there is no `<head>`. -/
def titlesOf (s : Soup) : List String :=
  match s.headTitles with
  | none => []
  | some ts => (ts.filter (fun t => pyStrip t ≠ "")).map pyStrip

/-- The formatted title: single value unmarked, several values behind the
`MULTIPLE TITLES FOUND` issue marker, empty string for none. -/
def final_title (s : Soup) : String :=
  let titles := titlesOf s
  if titles.length = 0 then ""
  else if titles.length = 1 then titles.headD ""
  else "⚠️ MULTIPLE TITLES FOUND (" ++ toString titles.length ++ ")\n" ++ numbered titles

/-- `desc_tags = soup.find_all('meta', {'name': ['description', 'Description',
'DESCRIPTION']})` then `[tag.get('content', '').strip() for tag in desc_tags
if tag.get('content', '').strip()]`. -/
def meta_descriptions (s : Soup) : List String :=
  let desc_tags := s.metas.filter (fun m =>
    m.name = some "description" ∨ m.name = some "Description" ∨ m.name = some "DESCRIPTION")
  desc_tags.filterMap (fun m =>
    let c := pyStrip (m.content.getD "")
    if c = "" then none else some c)

/-- The formatted meta description, same shape as the title field. -/
def final_description (s : Soup) : String :=
  let descs := meta_descriptions s
  if descs.length = 0 then ""
  else if descs.length = 1 then descs.headD ""
  else "⚠️ MULTIPLE META DESCRIPTIONS (" ++ toString descs.length ++ ")\n" ++ numbered descs

/-- `h1_texts = [h1.text.strip() for h1 in soup.find_all('h1') if h1.text and
h1.text.strip()]`. -/
def h1TextsOf (s : Soup) : List String :=
  (s.h1s.filter (fun t => pyStrip t ≠ "")).map pyStrip

/-- The formatted H1 field, same shape as the title field. -/
def final_h1 (s : Soup) : String :=
  let h1s := h1TextsOf s
  if h1s.length = 0 then ""
  else if h1s.length = 1 then h1s.headD ""
  else "⚠️ MULTIPLE H1 TAGS (" ++ toString h1s.length ++ ")\n" ++ numbered h1s

/-- `canonicals = [tag.get('href', '').strip() for tag in
soup.find_all('link', {'rel': 'canonical'}) if tag.get('href', '').strip()]`. -/
def canonicalsOf (s : Soup) : List String :=
  (s.links.filter (fun l => l.rel = some "canonical")).filterMap (fun l =>
    let h := pyStrip (l.href.getD "")
    if h = "" then none else some h)

/-- The formatted canonical field, same shape as the title field. -/
def final_canonical (s : Soup) : String :=
  let cans := canonicalsOf s
  if cans.length > 1 then
    "⚠️ MULTIPLE CANONICAL TAGS (" ++ toString cans.length ++ ")\n" ++ numbered cans
  else if cans.length = 1 then cans.headD ""
  else ""

/-- `robots_tags = soup.find_all('meta', {'name': 'robots'})`. -/
def robots_tags (s : Soup) : List MetaTag :=
  s.metas.filter (fun m => m.name = some "robots")

/-- `robots_contents = [tag.get('content', '').lower() for tag in robots_tags
if tag.get('content')]`: contents that are present and non-empty, lowercased. -/
def robots_contents (s : Soup) : List String :=
  (robots_tags s).filterMap (fun m =>
    match m.content with
    | some c => if c = "" then none else some (pyLower c)
    | none => none)

/-- `meta_robots_noindex = any('noindex' in content for content in
robots_contents)`. -/
def meta_robots_noindex (s : Soup) : Bool :=
  (robots_contents s).any (fun c => pyIn "noindex" c)

/-- The displayed robots status: `'Yes'`/`'No'`, behind a `MULTIPLE ROBOTS
TAGS` qualifier when more than one robots tag exists. -/
def robots_display (s : Soup) : String :=
  let d := if meta_robots_noindex s then "Yes" else "No"
  if (robots_tags s).length > 1 then "⚠️ MULTIPLE ROBOTS TAGS - " ++ d else d

/-- `extract_metadata(soup, url)`: the returned five-field dict.  The `except`
branch is the `.exn` case: four fields get the `❌ EXTRACTION ERROR: {e}`
marker and the robots field the string `'Error'`. -/
def extract_metadata : SoupInput → List (String × String)
  | .ok s =>
    [("Meta Title", final_title s),
     ("Meta Description", final_description s),
     ("H1", final_h1 s),
     ("Canonical URL", final_canonical s),
     ("Meta Robots Noindex", robots_display s)]
  | .exn msg =>
    let m := "❌ EXTRACTION ERROR: " ++ msg
    [("Meta Title", m),
     ("Meta Description", m),
     ("H1", m),
     ("Canonical URL", m),
     ("Meta Robots Noindex", "Error")]

/-- `RETRY_ATTEMPTS = 2`. -/
def RETRY_ATTEMPTS : Nat := 2

/-- Outcome of one HTTP attempt in `process_url`: an exception (timeout,
connection error, or a `BeautifulSoup` constructor failure — all land in the
same `except` block), or a response with status code, post-redirect final
URL, `len(response.history)` redirects, and the parsed (or parse-failed)
soup. -/
inductive FetchResult where
  | failure
  | success (statusCode : Nat) (finalURL : String) (redirectCount : Nat) (soup : SoupInput)
deriving Repr

/-- The mutable locals of `process_url` before the record is assembled. -/
structure UrlState where
  final_url : String
  status_code : CellVal
  redirect_count : Nat
  metadata : List (String × String)
deriving Repr

/-- The `for attempt in range(RETRY_ATTEMPTS)` loop: `remaining` attempts are
left, so the current index is `RETRY_ATTEMPTS - remaining`.  A successful
attempt sets the locals and breaks; a failed last attempt (`remaining = 1`)
sets `status_code = 'Error'`. -/
def process_url_go (attempts : Nat → FetchResult) : Nat → UrlState → UrlState
  | 0, st => st
  | remaining + 1, st =>
    match attempts (RETRY_ATTEMPTS - (remaining + 1)) with
    | .success sc fu rc soup =>
      { st with final_url := fu, status_code := .int sc, redirect_count := rc,
                metadata := extract_metadata soup }
    | .failure =>
      process_url_go attempts remaining
        (if remaining = 0 then { st with status_code := .str "Error" } else st)

/-- `metadata.get(key, '')`. -/
def mget (m : List (String × String)) (key : String) : String :=
  (List.lookup key m).getD ""

/-- `process_url(session, url)`: the returned nine-key record, in the dict
literal's key order.  `attempts` is the network oracle for this URL. -/
def process_url (url : String) (attempts : Nat → FetchResult) : List (String × CellVal) :=
  let st := process_url_go attempts RETRY_ATTEMPTS ⟨url, .pynone, 0, []⟩
  [("Original URL", .str url),
   ("Final URL", .str st.final_url),
   ("Meta Title", .str (mget st.metadata "Meta Title")),
   ("Meta Description", .str (mget st.metadata "Meta Description")),
   ("H1", .str (mget st.metadata "H1")),
   ("Status Code", st.status_code),
   ("Redirect Count", .int st.redirect_count),
   ("Canonical URL", .str (mget st.metadata "Canonical URL")),
   ("Meta Robots Noindex", .str ((List.lookup "Meta Robots Noindex" st.metadata).getD "No"))]

/-- A record as the rest of the pipeline consumes it. -/
abbrev Rec := List (String × CellVal)

/-- A resolved sitemap tree node: resolution at this node's URL raised (fetch
or XML parse failure, including a `<sitemap>` entry with no `<loc>`, whose
`.text` raises inside this node's `try`), or a leaf urlset with the `<loc>`
texts of its `<url>` entries, or a sitemap index with its child nodes. -/
inductive SitemapNode where
  | failure
  | urlset (locs : List String)
  | index (children : List SitemapNode)
deriving Repr

mutual
/-- `get_sitemap_urls(session, sitemap_url)`: `[]` on any exception, the
`<loc>` list for a urlset, the concatenation of recursively resolved
children for an index — each wrapped in `list(set(urls))`, modelled by
`List.dedup` (the Python set iteration order is arbitrary; the claims are
stated up to set equality). -/
def get_sitemap_urls : SitemapNode → List String
  | .failure => []
  | .urlset locs => locs.dedup
  | .index cs => (get_sitemap_urls_list cs).dedup

/-- `urls += get_sitemap_urls(session, child_url)` over an index's children. -/
def get_sitemap_urls_list : List SitemapNode → List String
  | [] => []
  | c :: cs => get_sitemap_urls c ++ get_sitemap_urls_list cs
end

mutual
/-- The set of leaf `<url><loc>` values reachable from a node; a failed node
contributes nothing. -/
def leafLocs : SitemapNode → Finset String
  | .failure => ∅
  | .urlset locs => locs.toFinset
  | .index cs => leafLocsList cs

/-- Union of `leafLocs` over a list of children. -/
def leafLocsList : List SitemapNode → Finset String
  | [] => ∅
  | c :: cs => leafLocs c ∪ leafLocsList cs
end

/-- The `CATEGORIES` table of `(name, path pattern)` pairs, in declared order. -/
def CATEGORIES : List (String × String) :=
  [("Products", "/products/"), ("Product", "/product/"),
   ("Product Categories", "/product-category/"), ("Collections", "/collections/"),
   ("Blog", "/blog/"), ("Posts", "/posts/"), ("Blogs", "/blogs/"),
   ("Categories", "/categories/"), ("Category", "/category/"),
   ("Portfolio", "/portfolio/"), ("Events", "/events/"), ("Archive", "/archive/"),
   ("Tags", "/tags/"), ("Tag", "/tag/"), ("Author", "/author/"),
   ("Users", "/users/"), ("Gallery", "/gallery/"), ("Downloads", "/downloads/"),
   ("Docs", "/docs/"), ("Documentation", "/documentation/"),
   ("Testimonials", "/testimonials/"), ("Testimonial", "/testimonial/"),
   ("Node", "/node/"), ("Content", "/content/"), ("Article", "/article/"),
   ("Articles", "/articles/"), ("Page", "/page/"), ("Pages", "/pages/"),
   ("Projects", "/projects/"), ("Case Studies", "/case-studies/"),
   ("Locations", "/locations/"), ("Service", "/service/"),
   ("Services", "/services/"), ("Courses", "/courses/"), ("Jobs", "/jobs/"),
   ("Published", "/published/"), ("Draft", "/draft/"),
   ("Departments", "/departments/"), ("Videos", "/videos/"), ("Video", "/video/"),
   ("Images", "/images/"), ("Image", "/image/"), ("WP Content", "/wp-content/"),
   ("Tools", "/tools/"), ("Tool", "/tool/"), ("Help", "/help/"), ("FAQ", "/faq/"),
   ("Helps", "/helps/"), ("Teams", "/teams/"), ("Team", "/team/"),
   ("Team Members", "/team-members/"), ("Team Member", "/team-member/"),
   ("Member", "/member/"), ("Resources", "/resources/"), ("News", "/news/")]

/-- `urlparse(url).path`, modelled for the URL shapes the crawler meets:
strip the fragment (first `#`) and query (first `?`); if a `://` remains,
the path starts at the first `/` after the authority, else the whole
remainder is the path. -/
def afterFirstMarker (marker : List Char) : List Char → Option (List Char)
  | [] => none
  | c :: t =>
    if marker.isPrefixOf (c :: t) then some ((c :: t).drop marker.length)
    else afterFirstMarker marker t

/-- `urlparse(url).path`, modelled for the URL shapes the crawler meets:
strip the fragment (first `#`) and query (first `?`); if a `://` remains,
the path starts at the first `/` after the authority, else the whole
remainder is the path. -/
def urlparse_path (url : String) : String :=
  let base := (url.toList.takeWhile (· ≠ '#')).takeWhile (· ≠ '?')
  match afterFirstMarker "://".toList base with
  | none => String.mk base
  | some rest => String.mk (rest.dropWhile (· ≠ '/'))

/-- Stable insertion step for the descending-by-pattern-length sort: `x`
moves past entries with strictly longer patterns and stops in front of the
first entry whose pattern is no longer than its own, so entries with equal
lengths keep their relative order. -/
def insertDesc (x : String × String) :
    List (String × String) → List (String × String)
  | [] => [x]
  | y :: t => if x.2.length < y.2.length then y :: insertDesc x t else x :: y :: t

/-- Stable sort by descending pattern length (insertion sort). -/
def sortDescByLen : List (String × String) → List (String × String)
  | [] => []
  | x :: t => insertDesc x (sortDescByLen t)

/-- `sorted(CATEGORIES, key=lambda x: len(x[1]), reverse=True)`: Python's
`sorted` with `reverse=True` is the stable descending sort by the key, and a
stable sort by a fixed key is extensionally unique, so the structurally
recursive insertion sort above computes exactly its result (exhibited
explicitly by `sorted_categories_eq` below). -/
def sorted_categories : List (String × String) :=
  sortDescByLen CATEGORIES

/-- `data['Original URL']` of a record (always present on pipeline records). -/
def origURL (r : Rec) : String :=
  strOfCell ((List.lookup "Original URL" r).getD (.str ""))

/-- The inner matching loop of `categorize_data`: the first pattern in
`sorted_categories` that is a substring of the record's URL path names the
bucket; no match falls through to `'Main'`. -/
def bucketOf (url : String) : String :=
  match sorted_categories.find? (fun c => pyIn c.2 (urlparse_path url)) with
  | some c => c.1
  | none => "Main"

/-- The initial `categorized` dict: one empty list per category name, plus
`'Main'` (dict insertion order: the categories, then `Main`). -/
def init_buckets : List (String × List Rec) :=
  CATEGORIES.map (fun c => (c.1, [])) ++ [("Main", [])]

/-- `categorized[name].append(data)`. -/
def append_to (m : List (String × List Rec)) (name : String) (r : Rec) :
    List (String × List Rec) :=
  m.map (fun e => if e.1 = name then (e.1, e.2 ++ [r]) else e)

/-- `categorize_data(metadata_list)`: each record is appended to the bucket
of the first (length-descending) matching pattern, or to `Main`. -/
def categorize_data (l : List Rec) : List (String × List Rec) :=
  l.foldl (fun m r => append_to m (bucketOf (origURL r)) r) init_buckets

/-- `columns_order` of `create_excel_report`. -/
def columns_order : List String :=
  ["Original URL", "Final URL", "Meta Title", "Meta Description", "H1",
   "Status Code", "Redirect Count", "Canonical URL", "Meta Robots Noindex"]

/-- One worksheet: its title and its cell rows (row 1 is the header). -/
structure Sheet where
  title : String
  rows : List (List CellVal)
deriving DecidableEq, Repr

/-- The header row written at row 1 of every data sheet. -/
def header_row : List CellVal := columns_order.map CellVal.str

/-- One data row: `item.get(header, '')` across `columns_order`. -/
def row_of (item : Rec) : List CellVal :=
  columns_order.map (fun h => (List.lookup h item).getD (.str ""))

/-- A data sheet: header row, then one row per record in bucket order. -/
def data_sheet (title : String) (items : List Rec) : Sheet :=
  ⟨title, header_row :: items.map row_of⟩

/-- The single-cell sheet emitted when every bucket is empty. -/
def info_sheet : Sheet := ⟨"Info", [[.str "No URLs found in sitemap"]]⟩

/-- `categorized_data[name]` (`getD []` never fires on `categorize_data`
output, whose key set is fixed). -/
def getBucket (cd : List (String × List Rec)) (name : String) : List Rec :=
  (List.lookup name cd).getD []

/-- `create_excel_report(categorized_data, filename)` as the sheet list it
writes: the `Main` sheet first when non-empty, then one sheet per non-empty
category in declared order (title truncated to 31 characters), and the
`Info` sheet when every bucket is empty. -/
def create_excel_report (cd : List (String × List Rec)) : List Sheet :=
  (if (getBucket cd "Main").isEmpty then [] else [data_sheet "Main" (getBucket cd "Main")])
  ++ CATEGORIES.filterMap (fun c =>
      let recs := getBucket cd c.1
      if recs.isEmpty then none else some (data_sheet (pySlice c.1 31) recs))
  ++ (if cd.all (fun e => e.2.isEmpty) then [info_sheet] else [])

/-- `item.get(key, '')` on a record, as a cell value. -/
def rget (r : Rec) (key : String) : CellVal :=
  (List.lookup key r).getD (.str "")

/-- `issues['multipleTitles']`. -/
def cnt_multipleTitles (l : List Rec) : Nat :=
  l.countP (fun r => pyIn "⚠️ MULTIPLE TITLES" (strOfCell (rget r "Meta Title")))

/-- `issues['missingDescriptions']` (`not item.get('Meta Description', '').strip()`). -/
def cnt_missingDescriptions (l : List Rec) : Nat :=
  l.countP (fun r => pyStrip (strOfCell (rget r "Meta Description")) = "")

/-- `issues['multipleH1s']`. -/
def cnt_multipleH1s (l : List Rec) : Nat :=
  l.countP (fun r => pyIn "⚠️ MULTIPLE H1" (strOfCell (rget r "H1")))

/-- `issues['noindexPages']`. -/
def cnt_noindexPages (l : List Rec) : Nat :=
  l.countP (fun r => pyIn "Yes" (strOfCell (rget r "Meta Robots Noindex")))

/-- `issues['longTitles']` (`len(str(...)) > 60`). -/
def cnt_longTitles (l : List Rec) : Nat :=
  l.countP (fun r => 60 < (strOfCell (rget r "Meta Title")).length)

/-- `issues['shortDescriptions']` (`0 < len(str(...)) < 120`). -/
def cnt_shortDescriptions (l : List Rec) : Nat :=
  l.countP (fun r =>
    0 < (strOfCell (rget r "Meta Description")).length ∧
    (strOfCell (rget r "Meta Description")).length < 120)

/-- `issues['errors']` (`'Error' in str(item.get('Status Code', ''))`). -/
def cnt_errors (l : List Rec) : Nat :=
  l.countP (fun r => pyIn "Error" (strOfCell ((List.lookup "Status Code" r).getD (.str ""))))

/-- `stats['warnings']` of the `analyze` response. -/
def stats_warnings (l : List Rec) : Nat :=
  cnt_multipleTitles l + cnt_multipleH1s l + cnt_longTitles l + cnt_shortDescriptions l

/-- `stats['healthy']` of the `analyze` response: plain Python integer
arithmetic, so values are `Int` (the expression can go negative). -/
def stats_healthy (l : List Rec) : Int :=
  (l.length : Int) - cnt_errors l - (cnt_multipleTitles l + cnt_multipleH1s l)

/-- The fixed key set of the `categorized` dict, in insertion order. -/
def bucket_names : List String := init_buckets.map Prod.fst

/-- A record carrying a duplicate-title marker, a long title (more than 60
characters), a duplicate-H1 marker and a short description all at once: it
contributes to four issue counters simultaneously. -/
def warn_demo_rec : Rec :=
  [("Original URL", .str "https://example.com/d"),
   ("Final URL", .str "https://example.com/d"),
   ("Meta Title",
    .str ("⚠️ MULTIPLE TITLES FOUND (2)\n1. Welcome to the Example Homepage\n2. Example")),
   ("Meta Description", .str "short description"),
   ("H1", .str "⚠️ MULTIPLE H1 TAGS (2)\n1. X\n2. Y"),
   ("Status Code", .int 200),
   ("Redirect Count", .int 0),
   ("Canonical URL", .str ""),
   ("Meta Robots Noindex", .str "No")]

/-- A page with two titles, two meta descriptions, two H1s and two canonical
links, used to instantiate the field-formatting theorem. -/
def demo_soup : Soup :=
  ⟨some ["A", "B"],
   [⟨some "description", some "D1"⟩, ⟨some "description", some "D2"⟩],
   ["Home", "Welcome"],
   [⟨some "canonical", some "c1"⟩, ⟨some "canonical", some "c2"⟩]⟩

end SEO

namespace SEO

/-! ### Supporting lemmas -/

/-- Both attempts failing leaves the loop state with `status_code = 'Error'`
and everything else untouched. -/
lemma process_url_go_allfail (att : Nat → FetchResult) (h0 : att 0 = .failure)
    (h1 : att 1 = .failure) (st : UrlState) :
    process_url_go att RETRY_ATTEMPTS st = { st with status_code := .str "Error" } := by
  simp [process_url_go, RETRY_ATTEMPTS, h0, h1]

/-- A successful first attempt sets the loop state from the response and
breaks. -/
lemma process_url_go_first_success (att : Nat → FetchResult) (sc : Nat) (fu : String)
    (rc : Nat) (soup : SoupInput) (h0 : att 0 = .success sc fu rc soup) (st : UrlState) :
    process_url_go att RETRY_ATTEMPTS st =
      { st with final_url := fu, status_code := .int sc, redirect_count := rc,
                metadata := extract_metadata soup } := by
  simp [process_url_go, RETRY_ATTEMPTS, h0]

/-- The record a URL whose every attempt failed produces, in full. -/
lemma process_url_allfail_eq (u : String) (att : Nat → FetchResult)
    (h0 : att 0 = FetchResult.failure) (h1 : att 1 = FetchResult.failure) :
    process_url u att =
      [("Original URL", .str u), ("Final URL", .str u), ("Meta Title", .str ""),
       ("Meta Description", .str ""), ("H1", .str ""), ("Status Code", .str "Error"),
       ("Redirect Count", .int 0), ("Canonical URL", .str ""),
       ("Meta Robots Noindex", .str "No")] := by
  simp [process_url, process_url_go_allfail att h0 h1, mget, List.lookup]

/-- Membership through the stable insertion step. -/
lemma mem_insertDesc (x a : String × String) :
    ∀ l, a ∈ insertDesc x l ↔ a = x ∨ a ∈ l := by
  intro l
  induction l with
  | nil => simp [insertDesc]
  | cons y t ih =>
    rw [insertDesc]
    by_cases h : x.2.length < y.2.length
    · rw [if_pos h]
      simp only [List.mem_cons, ih]
      tauto
    · rw [if_neg h]
      simp only [List.mem_cons]

/-- The sort neither adds nor drops entries. -/
lemma mem_sortDescByLen (a : String × String) :
    ∀ l, a ∈ sortDescByLen l ↔ a ∈ l := by
  intro l
  induction l with
  | nil => simp [sortDescByLen]
  | cons y t ih => simp [sortDescByLen, mem_insertDesc, ih]

/-- Inserting preserves the descending-length invariant. -/
lemma pairwise_insertDesc (x : String × String) :
    ∀ l, List.Pairwise (fun a b => b.2.length ≤ a.2.length) l →
      List.Pairwise (fun a b => b.2.length ≤ a.2.length) (insertDesc x l) := by
  intro l
  induction l with
  | nil => simp [insertDesc]
  | cons y t ih =>
    intro hp
    rw [List.pairwise_cons] at hp
    rw [insertDesc]
    by_cases h : x.2.length < y.2.length
    · rw [if_pos h, List.pairwise_cons]
      refine ⟨?_, ih hp.2⟩
      intro z hz
      rcases (mem_insertDesc x z t).mp hz with rfl | hz
      · omega
      · exact hp.1 z hz
    · rw [if_neg h, List.pairwise_cons]
      refine ⟨?_, List.pairwise_cons.mpr hp⟩
      intro z hz
      rcases List.mem_cons.mp hz with rfl | hz
      · omega
      · have := hp.1 z hz
        omega

/-- The sorted table is pairwise descending in pattern length. -/
lemma pairwise_sortDescByLen :
    ∀ l, List.Pairwise (fun a b => b.2.length ≤ a.2.length) (sortDescByLen l) := by
  intro l
  induction l with
  | nil => simp [sortDescByLen]
  | cons y t ih => exact pairwise_insertDesc y _ ih

/-- The category table in the tested order, explicitly: descending pattern
length, declared order inside each length tie — exactly Python's
`sorted(CATEGORIES, key=lambda x: len(x[1]), reverse=True)`. -/
lemma sorted_categories_eq :
    sorted_categories =
      [("Product Categories", "/product-category/"), ("Documentation", "/documentation/"),
       ("Testimonials", "/testimonials/"), ("Case Studies", "/case-studies/"),
       ("Team Members", "/team-members/"), ("Collections", "/collections/"),
       ("Testimonial", "/testimonial/"), ("Departments", "/departments/"),
       ("Team Member", "/team-member/"), ("Categories", "/categories/"),
       ("WP Content", "/wp-content/"), ("Portfolio", "/portfolio/"),
       ("Downloads", "/downloads/"), ("Locations", "/locations/"),
       ("Published", "/published/"), ("Resources", "/resources/"),
       ("Products", "/products/"), ("Category", "/category/"),
       ("Articles", "/articles/"), ("Projects", "/projects/"),
       ("Services", "/services/"), ("Product", "/product/"),
       ("Archive", "/archive/"), ("Gallery", "/gallery/"),
       ("Content", "/content/"), ("Article", "/article/"),
       ("Service", "/service/"), ("Courses", "/courses/"),
       ("Events", "/events/"), ("Author", "/author/"), ("Videos", "/videos/"),
       ("Images", "/images/"), ("Member", "/member/"), ("Posts", "/posts/"),
       ("Blogs", "/blogs/"), ("Users", "/users/"), ("Pages", "/pages/"),
       ("Draft", "/draft/"), ("Video", "/video/"), ("Image", "/image/"),
       ("Tools", "/tools/"), ("Helps", "/helps/"), ("Teams", "/teams/"),
       ("Blog", "/blog/"), ("Tags", "/tags/"), ("Docs", "/docs/"),
       ("Node", "/node/"), ("Page", "/page/"), ("Jobs", "/jobs/"),
       ("Tool", "/tool/"), ("Help", "/help/"), ("Team", "/team/"),
       ("News", "/news/"), ("Tag", "/tag/"), ("FAQ", "/faq/")] := by
  decide

/-- Folding the per-record appends over any starting dict appends, to every
entry, exactly the records whose bucket is that entry's key, in input
order. -/
lemma foldl_append_to (l : List Rec) : ∀ m : List (String × List Rec),
    l.foldl (fun m r => append_to m (bucketOf (origURL r)) r) m =
      m.map (fun e => (e.1, e.2 ++ l.filter (fun r => bucketOf (origURL r) = e.1))) := by
  induction l with
  | nil =>
    intro m
    simp
  | cons r t ih =>
    intro m
    rw [List.foldl_cons, ih, append_to, List.map_map]
    apply List.map_congr_left
    intro e _
    simp only [Function.comp_apply]
    by_cases he : e.1 = bucketOf (origURL r)
    · rw [if_pos he, List.filter_cons, if_pos (by simp [he])]
      simp
    · rw [if_neg he, List.filter_cons,
        if_neg (by simpa using fun h => he h.symm)]

/-- Looking a key up through a key-preserving map. -/
lemma lookup_map_keyed (k : String) (f : String → List Rec → List Rec) :
    ∀ m : List (String × List Rec),
      List.lookup k (m.map (fun e => (e.1, f e.1 e.2))) = (List.lookup k m).map (f k) := by
  intro m
  induction m with
  | nil => simp
  | cons e t ih =>
    by_cases h : k = e.1
    · simp [List.lookup, h]
    · have hb : (k == e.1) = false := by simpa using h
      simp [List.lookup, hb, ih]

/-- Looking up any present key of an all-empty bucket dict yields `[]`. -/
lemma lookup_all_nil (name : String) :
    ∀ m : List (String × List Rec), (∀ e ∈ m, e.2 = []) → name ∈ m.map Prod.fst →
      List.lookup name m = some [] := by
  intro m
  induction m with
  | nil => simp
  | cons e t ih =>
    intro hv hn
    by_cases h : name = e.1
    · have : e.2 = [] := hv e (List.mem_cons_self e t)
      simp [List.lookup, h, this]
    · have hb : (name == e.1) = false := by simpa using h
      simp only [List.lookup, hb]
      rw [List.map_cons] at hn
      rcases List.mem_cons.mp hn with h' | h'
      · exact absurd h' h
      · exact ih (fun x hx => hv x (List.mem_cons_of_mem e hx)) h'

/-- Every initial bucket is empty. -/
lemma init_buckets_values_nil : ∀ e ∈ init_buckets, e.2 = [] := by
  intro e he
  rcases List.mem_append.mp he with h | h
  · obtain ⟨c, _, rfl⟩ := List.mem_map.mp h
    rfl
  · rw [List.mem_singleton] at h
    rw [h]

/-- The bucket a name of the dict receives from `categorize_data` is exactly
the input records matched to that name, in input order. -/
lemma getBucket_categorize (l : List Rec) (name : String) (h : name ∈ bucket_names) :
    getBucket (categorize_data l) name =
      l.filter (fun r => bucketOf (origURL r) = name) := by
  rw [getBucket, categorize_data, foldl_append_to]
  rw [lookup_map_keyed name
    (fun k v => v ++ l.filter (fun r => bucketOf (origURL r) = k))]
  rw [lookup_all_nil name init_buckets init_buckets_values_nil h]
  rfl

/-- The matching loop always lands on a key of the dict. -/
lemma bucketOf_mem_bucket_names (url : String) : bucketOf url ∈ bucket_names := by
  rcases hf : sorted_categories.find? (fun c => pyIn c.2 (urlparse_path url)) with _ | c
  · rw [bucketOf, hf]
    decide
  · rw [bucketOf, hf]
    show c.1 ∈ bucket_names
    have hc : c ∈ CATEGORIES :=
      (mem_sortDescByLen c CATEGORIES).mp (List.mem_of_find?_eq_some hf)
    simp only [bucket_names, init_buckets, List.map_append, List.map_map]
    exact List.mem_append_left _ (List.mem_map.mpr ⟨c, hc, rfl⟩)

/-- A non-`Main` bucket comes from a declared pattern that matches the URL
path and whose length is maximal among all matching patterns. -/
lemma bucketOf_spec (url name : String) (hb : bucketOf url = name)
    (hnm : name ≠ "Main") :
    ∃ pat, (name, pat) ∈ CATEGORIES ∧ pyIn pat (urlparse_path url) = true ∧
      ∀ c ∈ CATEGORIES, pyIn c.2 (urlparse_path url) = true →
        c.2.length ≤ pat.length := by
  rw [bucketOf] at hb
  rcases hf : sorted_categories.find? (fun c => pyIn c.2 (urlparse_path url)) with _ | c
  · rw [hf] at hb
    exact absurd hb.symm hnm
  · rw [hf] at hb
    obtain ⟨hp, as, bs, heq, hall⟩ := List.find?_eq_some.mp hf
    refine ⟨c.2, ?_, hp, ?_⟩
    · rw [← hb]
      exact (mem_sortDescByLen c CATEGORIES).mp (List.mem_of_find?_eq_some hf)
    · intro d hd hpd
      have hds : d ∈ sorted_categories := (mem_sortDescByLen d CATEGORIES).mpr hd
      rw [heq] at hds
      have hpw : List.Pairwise (fun a b => b.2.length ≤ a.2.length) sorted_categories :=
        pairwise_sortDescByLen CATEGORIES
      rw [heq, List.pairwise_append] at hpw
      rcases List.mem_append.mp hds with hin | hin
      · have := hall d hin
        rw [hpd] at this
        simp at this
      · rcases List.mem_cons.mp hin with rfl | hin
        · exact le_refl _
        · exact (List.pairwise_cons.mp hpw.2.1).1 d hin

/-- `list(set(urls))` keeps the set of elements. -/
lemma dedup_toFinset (l : List String) : l.dedup.toFinset = l.toFinset := by
  ext a
  simp [List.mem_toFinset, List.mem_dedup]

/-- The resolver's result is, as a set, the leaf locs reachable from the
node (strong induction on the tree size). -/
lemma get_sitemap_urls_toFinset : ∀ t : SitemapNode,
    (get_sitemap_urls t).toFinset = leafLocs t := by
  have key : ∀ n, ∀ t : SitemapNode, sizeOf t ≤ n →
      (get_sitemap_urls t).toFinset = leafLocs t := by
    intro n
    induction n with
    | zero =>
      intro t ht
      exact absurd ht (by cases t <;> simp)
    | succ n ih =>
      intro t ht
      match t with
      | .failure => simp [get_sitemap_urls, leafLocs]
      | .urlset locs => simp [get_sitemap_urls, leafLocs, dedup_toFinset]
      | .index cs =>
        have hcs : ∀ c ∈ cs, sizeOf c ≤ n := by
          intro c hc
          have h1 : sizeOf c < sizeOf cs := List.sizeOf_lt_of_mem hc
          have h2 : sizeOf (SitemapNode.index cs) = 1 + sizeOf cs := by simp
          omega
        have hlist : ∀ cs' : List SitemapNode, (∀ c ∈ cs', sizeOf c ≤ n) →
            (get_sitemap_urls_list cs').toFinset = leafLocsList cs' := by
          intro cs'
          induction cs' with
          | nil =>
            intro _
            simp [get_sitemap_urls_list, leafLocsList]
          | cons c rest ihl =>
            intro hb
            rw [get_sitemap_urls_list, List.toFinset_append, leafLocsList,
              ih c (hb c (List.mem_cons_self c rest)),
              ihl (fun x hx => hb x (List.mem_cons_of_mem c hx))]
        rw [get_sitemap_urls, leafLocs, dedup_toFinset]
        exact hlist cs hcs
  intro t
  exact key (sizeOf t) t (le_refl _)

/-- A declared category name is a key of the bucket dict. -/
lemma cat_name_mem (c : String × String) (hc : c ∈ CATEGORIES) : c.1 ∈ bucket_names := by
  simp only [bucket_names, init_buckets, List.map_append, List.map_map]
  exact List.mem_append_left _ (List.mem_map.mpr ⟨c, hc, rfl⟩)

/-- No declared category name is longer than the 31-character sheet limit. -/
lemma pySlice31 : ∀ c ∈ CATEGORIES, pySlice c.1 31 = c.1 := by decide

/-- Every bucket is empty exactly when the record list is empty. -/
lemma all_empty_categorize (l : List Rec) :
    (categorize_data l).all (fun e => e.2.isEmpty) = l.isEmpty := by
  rcases l with _ | ⟨r, t⟩
  · decide
  · have hname := bucketOf_mem_bucket_names (origURL r)
    obtain ⟨e, he, heq⟩ := List.mem_map.mp hname
    have hmem : (e.1, e.2 ++ (r :: t).filter (fun x => bucketOf (origURL x) = e.1)) ∈
        categorize_data (r :: t) := by
      rw [categorize_data, foldl_append_to]
      exact List.mem_map.mpr ⟨e, he, rfl⟩
    rw [List.isEmpty_cons, List.all_eq_false]
    refine ⟨_, hmem, ?_⟩
    rw [List.filter_cons, if_pos (by simp [heq])]
    simp

end SEO

namespace SEO

/-! ### Claim theorems -/

/-- C1 (amended): for each extracted field (title, description, H1,
canonical), N ≥ 2 non-blank occurrences render as the field's issue marker
carrying the count N followed by the numbered list of all N values in
document order; N = 1 renders exactly that value; N = 0 renders the empty
string.  A page with two `<h1>` tags Home and Welcome yields the H1 field
"⚠️ MULTIPLE H1 TAGS (2)\n1. Home\n2. Welcome", whose marker starts with
U+26A0 U+FE0F (not bare U+26A0 as the claim quotes it). -/
theorem claim1_formatted_fields (s : Soup) :
    (2 ≤ (titlesOf s).length →
      final_title s = "⚠️ MULTIPLE TITLES FOUND (" ++ toString (titlesOf s).length ++ ")\n"
        ++ numbered (titlesOf s)) ∧
    (∀ v, titlesOf s = [v] → final_title s = v) ∧
    (titlesOf s = [] → final_title s = "") ∧
    (2 ≤ (meta_descriptions s).length →
      final_description s = "⚠️ MULTIPLE META DESCRIPTIONS ("
        ++ toString (meta_descriptions s).length ++ ")\n" ++ numbered (meta_descriptions s)) ∧
    (∀ v, meta_descriptions s = [v] → final_description s = v) ∧
    (meta_descriptions s = [] → final_description s = "") ∧
    (2 ≤ (h1TextsOf s).length →
      final_h1 s = "⚠️ MULTIPLE H1 TAGS (" ++ toString (h1TextsOf s).length ++ ")\n"
        ++ numbered (h1TextsOf s)) ∧
    (∀ v, h1TextsOf s = [v] → final_h1 s = v) ∧
    (h1TextsOf s = [] → final_h1 s = "") ∧
    (2 ≤ (canonicalsOf s).length →
      final_canonical s = "⚠️ MULTIPLE CANONICAL TAGS (" ++ toString (canonicalsOf s).length
        ++ ")\n" ++ numbered (canonicalsOf s)) ∧
    (∀ v, canonicalsOf s = [v] → final_canonical s = v) ∧
    (canonicalsOf s = [] → final_canonical s = "") ∧
    final_h1 ⟨none, [], ["Home", "Welcome"], []⟩ =
      "⚠️ MULTIPLE H1 TAGS (2)\n1. Home\n2. Welcome" := by
  refine ⟨?_, ?_, ?_, ?_, ?_, ?_, ?_, ?_, ?_, ?_, ?_, ?_, by decide⟩
  · intro h
    rw [final_title, if_neg (by omega), if_neg (by omega)]
  · intro v h
    simp [final_title, h]
  · intro h
    simp [final_title, h]
  · intro h
    rw [final_description, if_neg (by omega), if_neg (by omega)]
  · intro v h
    simp [final_description, h]
  · intro h
    simp [final_description, h]
  · intro h
    rw [final_h1, if_neg (by omega), if_neg (by omega)]
  · intro v h
    simp [final_h1, h]
  · intro h
    simp [final_h1, h]
  · intro h
    rw [final_canonical, if_pos (by omega)]
  · intro v h
    simp [final_canonical, h]
  · intro h
    simp [final_canonical, h]

/-- C1 counterexample: the claim quotes the H1 field for the two-`<h1>` page
as starting with bare U+26A0, but the code's marker is the two-code-point
sequence U+26A0 U+FE0F, so the quoted string differs from the rendered
field. -/
theorem claim1_counterexample :
    final_h1 ⟨none, [], ["Home", "Welcome"], []⟩ ≠
      "⚠ MULTIPLE H1 TAGS (2)\n1. Home\n2. Welcome" ∧
    final_h1 ⟨none, [], ["Home", "Welcome"], []⟩ =
      "⚠️ MULTIPLE H1 TAGS (2)\n1. Home\n2. Welcome" := by
  exact ⟨by decide, by decide⟩

/-- C1 witness: the formatting theorem instantiated on a page with two
titles, two descriptions, two H1s and two canonical links. -/
theorem claim1_witness :
    2 ≤ (titlesOf demo_soup).length ∧
    final_title demo_soup = "⚠️ MULTIPLE TITLES FOUND (2)\n1. A\n2. B" ∧
    final_description demo_soup = "⚠️ MULTIPLE META DESCRIPTIONS (2)\n1. D1\n2. D2" ∧
    final_h1 demo_soup = "⚠️ MULTIPLE H1 TAGS (2)\n1. Home\n2. Welcome" ∧
    final_canonical demo_soup = "⚠️ MULTIPLE CANONICAL TAGS (2)\n1. c1\n2. c2" := by
  obtain ⟨h1, _, _, h2, _, _, h3, _, _, h4, _, _, _⟩ := claim1_formatted_fields demo_soup
  exact ⟨by decide, (h1 (by decide)).trans (by decide), (h2 (by decide)).trans (by decide),
    (h3 (by decide)).trans (by decide), (h4 (by decide)).trans (by decide)⟩

/-- C2: the resolver's output is duplicate-free and equals, as a set, the
union of the leaf locs reachable from the root, at any nesting depth; a
failed node contributes nothing and its siblings still resolve; the
two-child scenario with one URL shared across children yields exactly 5
unique URLs. -/
theorem claim2_sitemap_union (t : SitemapNode) :
    (get_sitemap_urls t).Nodup ∧
    (get_sitemap_urls t).toFinset = leafLocs t ∧
    get_sitemap_urls SitemapNode.failure = [] ∧
    get_sitemap_urls (SitemapNode.index
        [.urlset ["u1", "u2", "dup"], .urlset ["u3", "u4", "dup"]]) =
      ["u1", "u2", "u3", "u4", "dup"] ∧
    (get_sitemap_urls (SitemapNode.index
        [.urlset ["u1", "u2", "dup"], .urlset ["u3", "u4", "dup"]])).length = 5 ∧
    get_sitemap_urls (SitemapNode.index [.failure, .urlset ["a", "b"]]) = ["a", "b"] := by
  refine ⟨?_, get_sitemap_urls_toFinset t, by decide, by decide, by decide, by decide⟩
  cases t <;> simp [get_sitemap_urls, List.nodup_dedup]

/-- C2 witness: the resolver theorem instantiated on the two-child scenario
tree. -/
theorem claim2_witness :
    (get_sitemap_urls (SitemapNode.index
        [.urlset ["u1", "u2", "dup"], .urlset ["u3", "u4", "dup"]])).Nodup ∧
    (get_sitemap_urls (SitemapNode.index
        [.urlset ["u1", "u2", "dup"], .urlset ["u3", "u4", "dup"]])).toFinset =
      leafLocs (SitemapNode.index
        [.urlset ["u1", "u2", "dup"], .urlset ["u3", "u4", "dup"]]) :=
  ⟨(claim2_sitemap_union (SitemapNode.index
      [.urlset ["u1", "u2", "dup"], .urlset ["u3", "u4", "dup"]])).1,
   (claim2_sitemap_union (SitemapNode.index
      [.urlset ["u1", "u2", "dup"], .urlset ["u3", "u4", "dup"]])).2.1⟩

/-- C3 (amended): every record lands in exactly one bucket — that of the
first pattern, in descending-length order, that is a substring of its URL
path, with Main as the fallback; the matched pattern has maximal length
among all matching patterns; a path containing "/team-members/" is never
bucketed under Team, and "/team/team-members/" (matching no other pattern)
goes to Team Members.  The claim's stronger reading — that every path
containing both substrings always lands in Team Members — fails when a
longer or earlier-tied pattern also matches (see the counterexample). -/
theorem claim3_categorization (l : List Rec) :
    (∀ name ∈ bucket_names,
      getBucket (categorize_data l) name =
        l.filter (fun r => bucketOf (origURL r) = name)) ∧
    (∀ r ∈ l, ∃! name, name ∈ bucket_names ∧ r ∈ getBucket (categorize_data l) name) ∧
    (∀ url, (∀ c ∈ CATEGORIES, pyIn c.2 (urlparse_path url) = false) →
      bucketOf url = "Main") ∧
    (∀ url name, bucketOf url = name → name ≠ "Main" →
      ∃ pat, (name, pat) ∈ CATEGORIES ∧ pyIn pat (urlparse_path url) = true ∧
        ∀ c ∈ CATEGORIES, pyIn c.2 (urlparse_path url) = true →
          c.2.length ≤ pat.length) ∧
    (∀ url, pyIn "/team-members/" (urlparse_path url) = true → bucketOf url ≠ "Team") ∧
    bucketOf "https://example.com/team/team-members/join/" = "Team Members" := by
  refine ⟨getBucket_categorize l, ?_, ?_, fun url name hb hnm => bucketOf_spec url name hb hnm,
    ?_, by decide⟩
  · intro r hr
    refine ⟨bucketOf (origURL r), ⟨bucketOf_mem_bucket_names (origURL r), ?_⟩, ?_⟩
    · rw [getBucket_categorize l _ (bucketOf_mem_bucket_names (origURL r))]
      exact List.mem_filter.mpr ⟨hr, by simp⟩
    · rintro name ⟨hn, hmem⟩
      rw [getBucket_categorize l name hn] at hmem
      have := (List.mem_filter.mp hmem).2
      exact (show bucketOf (origURL r) = name by simpa using this).symm
  · intro url hnone
    rw [bucketOf]
    rcases hf : sorted_categories.find? (fun c => pyIn c.2 (urlparse_path url)) with _ | c
    · rw [hf]
    · have hp := List.find?_some hf
      have hc : c ∈ CATEGORIES :=
        (mem_sortDescByLen c CATEGORIES).mp (List.mem_of_find?_eq_some hf)
      rw [hnone c hc] at hp
      exact absurd hp (by simp)
  · intro url htm hcontra
    obtain ⟨pat, hmem, _, hmax⟩ := bucketOf_spec url "Team" hcontra (by decide)
    have hteam : ∀ c ∈ CATEGORIES, c.1 = "Team" → c.2 = "/team/" := by decide
    have hpat : pat = "/team/" := hteam ("Team", pat) hmem rfl
    have h14 := hmax ("Team Members", "/team-members/") (by decide) htm
    rw [hpat] at h14
    exact absurd h14 (by decide)

/-- C3 counterexample: the path of this URL contains both "/team-members/"
and "/team/", yet the record is bucketed under Testimonials (whose
equal-length pattern is tested first), not Team Members. -/
theorem claim3_counterexample :
    pyIn "/team-members/"
      (urlparse_path "https://example.com/testimonials/team-members/team/x") = true ∧
    pyIn "/team/"
      (urlparse_path "https://example.com/testimonials/team-members/team/x") = true ∧
    bucketOf "https://example.com/testimonials/team-members/team/x" = "Testimonials" ∧
    ("Testimonials" : String) ≠ "Team Members" := by
  refine ⟨by decide, by decide, by decide, by decide⟩

/-- C3 witness: a one-record list whose URL path matches the Team pattern
only, landing in the Team bucket. -/
theorem claim3_witness :
    getBucket (categorize_data
        [[("Original URL", CellVal.str "https://example.com/team/alice")]]) "Team" =
      [[("Original URL", CellVal.str "https://example.com/team/alice")]] :=
  ((claim3_categorization
      [[("Original URL", CellVal.str "https://example.com/team/alice")]]).1
    "Team" (by decide)).trans (by decide)

/-- C4 (amended): a URL whose both fetch attempts fail still yields a record
(the embedding is a total function) with status code the sentinel 'Error',
redirect count 0, empty title, description, H1 and canonical fields — and
the noindex field equal to its default 'No', not empty as the claim
states. -/
theorem claim4_failed_fetch_record (url : String) (attempts : Nat → FetchResult)
    (h0 : attempts 0 = FetchResult.failure) (h1 : attempts 1 = FetchResult.failure) :
    rget (process_url url attempts) "Status Code" = .str "Error" ∧
    rget (process_url url attempts) "Redirect Count" = .int 0 ∧
    rget (process_url url attempts) "Meta Title" = .str "" ∧
    rget (process_url url attempts) "Meta Description" = .str "" ∧
    rget (process_url url attempts) "H1" = .str "" ∧
    rget (process_url url attempts) "Canonical URL" = .str "" ∧
    rget (process_url url attempts) "Meta Robots Noindex" = .str "No" := by
  simp [process_url, process_url_go_allfail attempts h0 h1, rget, mget, List.lookup]

/-- C4 counterexample: after two failed attempts the Meta Robots Noindex
field is the string 'No', not the empty string, so not all metadata fields
are empty. -/
theorem claim4_counterexample :
    rget (process_url "https://example.com/a" (fun _ => FetchResult.failure))
      "Meta Robots Noindex" = CellVal.str "No" ∧
    CellVal.str "No" ≠ CellVal.str "" := by
  exact ⟨rfl, by decide⟩

/-- C4 witness: the failed-fetch theorem instantiated on a concrete URL with
an always-failing network. -/
theorem claim4_witness :
    rget (process_url "https://example.com/a" (fun _ => FetchResult.failure)) "Status Code"
      = CellVal.str "Error" ∧
    rget (process_url "https://example.com/a" (fun _ => FetchResult.failure)) "Redirect Count"
      = CellVal.int 0 ∧
    rget (process_url "https://example.com/a" (fun _ => FetchResult.failure)) "Meta Title"
      = CellVal.str "" ∧
    rget (process_url "https://example.com/a" (fun _ => FetchResult.failure)) "Meta Description"
      = CellVal.str "" ∧
    rget (process_url "https://example.com/a" (fun _ => FetchResult.failure)) "H1"
      = CellVal.str "" ∧
    rget (process_url "https://example.com/a" (fun _ => FetchResult.failure)) "Canonical URL"
      = CellVal.str "" ∧
    rget (process_url "https://example.com/a" (fun _ => FetchResult.failure)) "Meta Robots Noindex"
      = CellVal.str "No" :=
  claim4_failed_fetch_record "https://example.com/a" (fun _ => FetchResult.failure) rfl rfl

end SEO

namespace SEO

/-- C5: the Aggregator's derived stats satisfy
warnings = duplicateTitles + duplicateH1s + longTitles + shortDescriptions and
healthy = total − errors − (duplicateTitles + duplicateH1s), the counters are
additive with no cross-category deduplication (a single record can feed four
counters at once, and healthy can even go negative), and when every resolved
URL fails the Aggregator reports errors = total and healthy = 0. -/
theorem claim5_aggregator_stats (l : List Rec) :
    stats_warnings l = cnt_multipleTitles l + cnt_multipleH1s l + cnt_longTitles l
      + cnt_shortDescriptions l ∧
    stats_healthy l = (l.length : Int) - cnt_errors l
      - (cnt_multipleTitles l + cnt_multipleH1s l) ∧
    (∀ (urls : List String) (atts : String → Nat → FetchResult),
      (∀ u i, atts u i = FetchResult.failure) →
      cnt_errors (urls.map (fun u => process_url u (atts u))) = urls.length ∧
      stats_healthy (urls.map (fun u => process_url u (atts u))) = 0) ∧
    stats_warnings [warn_demo_rec] = 4 ∧
    stats_healthy [warn_demo_rec] = -1 := by
  refine ⟨rfl, rfl, ?_, by decide, by decide⟩
  intro urls atts h
  have hrec : ∀ u, process_url u (atts u) =
      [("Original URL", .str u), ("Final URL", .str u), ("Meta Title", .str ""),
       ("Meta Description", .str ""), ("H1", .str ""), ("Status Code", .str "Error"),
       ("Redirect Count", .int 0), ("Canonical URL", .str ""),
       ("Meta Robots Noindex", .str "No")] :=
    fun u => process_url_allfail_eq u (atts u) (h u 0) (h u 1)
  have herr : cnt_errors (urls.map (fun u => process_url u (atts u))) = urls.length := by
    rw [cnt_errors, List.countP_map, List.countP_eq_length]
    intro u _
    simp only [Function.comp_apply]
    rw [hrec u]
    show pyIn "Error" (strOfCell (CellVal.str "Error")) = true
    decide
  refine ⟨herr, ?_⟩
  have hmt : cnt_multipleTitles (urls.map (fun u => process_url u (atts u))) = 0 := by
    rw [cnt_multipleTitles, List.countP_map, List.countP_eq_zero]
    intro u _
    simp only [Function.comp_apply]
    rw [hrec u]
    show ¬pyIn "⚠️ MULTIPLE TITLES" (strOfCell (CellVal.str "")) = true
    decide
  have hmh : cnt_multipleH1s (urls.map (fun u => process_url u (atts u))) = 0 := by
    rw [cnt_multipleH1s, List.countP_map, List.countP_eq_zero]
    intro u _
    simp only [Function.comp_apply]
    rw [hrec u]
    show ¬pyIn "⚠️ MULTIPLE H1" (strOfCell (CellVal.str "")) = true
    decide
  rw [stats_healthy, herr, hmt, hmh, List.length_map]
  omega

/-- C5 witness: the all-URLs-fail scenario instantiated on two concrete URLs
with an always-failing network. -/
theorem claim5_witness :
    cnt_errors (["https://example.com/a", "https://example.com/b"].map
      (fun u => process_url u ((fun _ _ => FetchResult.failure) u))) = 2 ∧
    stats_healthy (["https://example.com/a", "https://example.com/b"].map
      (fun u => process_url u ((fun _ _ => FetchResult.failure) u))) = 0 :=
  (claim5_aggregator_stats []).2.2.1
    ["https://example.com/a", "https://example.com/b"]
    (fun _ _ => FetchResult.failure) (fun _ _ => rfl)

/-- C6: noindexStatus is Yes exactly when some `<meta name="robots">` tag has
a content containing the case-insensitive substring "noindex"; with more
than one robots tag the displayed status carries the MULTIPLE ROBOTS TAGS
qualifier together with the Yes/No value, and with at most one it is the
bare Yes/No. -/
theorem claim6_noindex_iff (s : Soup) :
    (meta_robots_noindex s = true ↔ ∃ m ∈ s.metas, m.name = some "robots" ∧
       ∃ c, m.content = some c ∧ pyIn "noindex" (pyLower c) = true) ∧
    (1 < (robots_tags s).length →
       robots_display s =
         "⚠️ MULTIPLE ROBOTS TAGS - " ++ (if meta_robots_noindex s then "Yes" else "No")) ∧
    ((robots_tags s).length ≤ 1 →
       robots_display s = (if meta_robots_noindex s then "Yes" else "No")) := by
  refine ⟨?_, ?_, ?_⟩
  · rw [meta_robots_noindex, List.any_eq_true]
    constructor
    · rintro ⟨c, hc, hpi⟩
      obtain ⟨m, hm, hf⟩ := List.mem_filterMap.mp hc
      obtain ⟨hmem, hname⟩ := List.mem_filter.mp hm
      rcases hcontent : m.content with _ | c0
      · rw [hcontent] at hf
        simp at hf
      · rw [hcontent] at hf
        by_cases h0 : c0 = ""
        · simp [h0] at hf
        · simp only [h0, if_false] at hf
          refine ⟨m, hmem, by simpa using hname, c0, hcontent, ?_⟩
          rw [Option.some_inj.mp hf]
          exact hpi
    · rintro ⟨m, hmem, hname, c, hcontent, hpi⟩
      refine ⟨pyLower c, List.mem_filterMap.mpr ⟨m, ?_, ?_⟩, hpi⟩
      · exact List.mem_filter.mpr ⟨hmem, by simpa using hname⟩
      · by_cases h0 : c = ""
        · subst h0
          exact absurd hpi (by decide)
        · simp [hcontent, h0]
  · intro h
    simp only [robots_display]
    rw [if_pos h]
  · intro h
    simp only [robots_display]
    rw [if_neg (by omega)]

/-- C6 witness: a page with two robots tags, one carrying NOINDEX in mixed
case: the status is Yes and the display carries the qualifier. -/
theorem claim6_witness :
    meta_robots_noindex ⟨none,
      [⟨some "robots", some "NoIndex,follow"⟩, ⟨some "robots", some "all"⟩], [], []⟩ = true ∧
    robots_display ⟨none,
      [⟨some "robots", some "NoIndex,follow"⟩, ⟨some "robots", some "all"⟩], [], []⟩ =
      "⚠️ MULTIPLE ROBOTS TAGS - Yes" := by
  obtain ⟨hiff, hmul, _⟩ := claim6_noindex_iff ⟨none,
    [⟨some "robots", some "NoIndex,follow"⟩, ⟨some "robots", some "all"⟩], [], []⟩
  have hyes := hiff.mpr ⟨⟨some "robots", some "NoIndex,follow"⟩, by decide, rfl,
    "NoIndex,follow", rfl, by decide⟩
  exact ⟨hyes, (hmul (by decide)).trans (by simp [hyes])⟩

/-- C7 (amended): an extraction exception sets the four fields title,
description, H1 and canonical to one shared "❌ EXTRACTION ERROR: …" marker
and the noindex field to 'Error' (not the same marker, as the claim
states); the record is never partial, and its fetch-level fields (original
URL, final URL, status code, redirect count) keep the response's values. -/
theorem claim7_extraction_error (msg url fu : String) (sc rc : Nat)
    (attempts : Nat → FetchResult)
    (h0 : attempts 0 = FetchResult.success sc fu rc (SoupInput.exn msg)) :
    mget (extract_metadata (.exn msg)) "Meta Title" = "❌ EXTRACTION ERROR: " ++ msg ∧
    mget (extract_metadata (.exn msg)) "Meta Description" = "❌ EXTRACTION ERROR: " ++ msg ∧
    mget (extract_metadata (.exn msg)) "H1" = "❌ EXTRACTION ERROR: " ++ msg ∧
    mget (extract_metadata (.exn msg)) "Canonical URL" = "❌ EXTRACTION ERROR: " ++ msg ∧
    mget (extract_metadata (.exn msg)) "Meta Robots Noindex" = "Error" ∧
    rget (process_url url attempts) "Original URL" = .str url ∧
    rget (process_url url attempts) "Final URL" = .str fu ∧
    rget (process_url url attempts) "Status Code" = .int sc ∧
    rget (process_url url attempts) "Redirect Count" = .int rc ∧
    rget (process_url url attempts) "Meta Title" = .str ("❌ EXTRACTION ERROR: " ++ msg) := by
  refine ⟨rfl, rfl, rfl, rfl, rfl, ?_, ?_, ?_, ?_, ?_⟩ <;>
    simp [process_url, process_url_go_first_success attempts sc fu rc _ h0,
      rget, mget, List.lookup, extract_metadata]

/-- C7 counterexample: on a parse exception the noindex field is 'Error',
which differs from the shared extraction-error marker of the other four
fields, so the five fields are not all set to the same marker. -/
theorem claim7_counterexample :
    mget (extract_metadata (.exn "e")) "Meta Title" = "❌ EXTRACTION ERROR: e" ∧
    mget (extract_metadata (.exn "e")) "Meta Robots Noindex" = "Error" ∧
    ("Error" : String) ≠ "❌ EXTRACTION ERROR: e" := by
  exact ⟨rfl, rfl, by decide⟩

/-- C7 witness: the extraction-error theorem instantiated on a concrete URL
whose fetch succeeds with status 200 and one redirect but whose parse
raises "boom". -/
theorem claim7_witness :
    mget (extract_metadata (.exn "boom")) "Meta Title" = "❌ EXTRACTION ERROR: " ++ "boom" ∧
    mget (extract_metadata (.exn "boom")) "Meta Description"
      = "❌ EXTRACTION ERROR: " ++ "boom" ∧
    mget (extract_metadata (.exn "boom")) "H1" = "❌ EXTRACTION ERROR: " ++ "boom" ∧
    mget (extract_metadata (.exn "boom")) "Canonical URL"
      = "❌ EXTRACTION ERROR: " ++ "boom" ∧
    mget (extract_metadata (.exn "boom")) "Meta Robots Noindex" = "Error" ∧
    rget (process_url "https://example.com/c"
        (fun _ => FetchResult.success 200 "https://example.com/c2" 1 (SoupInput.exn "boom")))
      "Original URL" = CellVal.str "https://example.com/c" ∧
    rget (process_url "https://example.com/c"
        (fun _ => FetchResult.success 200 "https://example.com/c2" 1 (SoupInput.exn "boom")))
      "Final URL" = CellVal.str "https://example.com/c2" ∧
    rget (process_url "https://example.com/c"
        (fun _ => FetchResult.success 200 "https://example.com/c2" 1 (SoupInput.exn "boom")))
      "Status Code" = CellVal.int 200 ∧
    rget (process_url "https://example.com/c"
        (fun _ => FetchResult.success 200 "https://example.com/c2" 1 (SoupInput.exn "boom")))
      "Redirect Count" = CellVal.int 1 ∧
    rget (process_url "https://example.com/c"
        (fun _ => FetchResult.success 200 "https://example.com/c2" 1 (SoupInput.exn "boom")))
      "Meta Title" = CellVal.str ("❌ EXTRACTION ERROR: " ++ "boom") :=
  claim7_extraction_error "boom" "https://example.com/c" "https://example.com/c2" 200 1
    (fun _ => FetchResult.success 200 "https://example.com/c2" 1 (SoupInput.exn "boom")) rfl

end SEO

namespace SEO

/-- C8: a report holds exactly one sheet per non-empty bucket — Main first,
then categories in declared order — each sheet being the nine-column header
row plus one row per record in bucket order (row count = record count + 1);
empty buckets yield no sheet, and an empty record set yields the single
informational sheet instead of an empty workbook. -/
theorem claim8_report_sheets (l : List Rec) :
    (l ≠ [] → (create_excel_report (categorize_data l)).map Sheet.title =
      (if (l.filter (fun r => bucketOf (origURL r) = "Main")).isEmpty then [] else ["Main"])
      ++ CATEGORIES.filterMap (fun c =>
          if (l.filter (fun r => bucketOf (origURL r) = c.1)).isEmpty then none
          else some c.1)) ∧
    (∀ s ∈ create_excel_report (categorize_data l),
      s = info_sheet ∨
      ∃ name ∈ bucket_names,
        s = data_sheet name (l.filter (fun r => bucketOf (origURL r) = name)) ∧
        l.filter (fun r => bucketOf (origURL r) = name) ≠ [] ∧
        s.rows.length = (l.filter (fun r => bucketOf (origURL r) = name)).length + 1 ∧
        s.rows.headD [] = header_row) ∧
    (l = [] → create_excel_report (categorize_data l) = [info_sheet]) ∧
    header_row.length = 9 ∧
    (∀ item : Rec, (row_of item).length = 9) := by
  refine ⟨?_, ?_, ?_, by decide, ?_⟩
  · intro hne
    have hMain := getBucket_categorize l "Main" (by decide)
    have hallF : (categorize_data l).all (fun e => e.2.isEmpty) = false := by
      rw [all_empty_categorize]
      rcases l with _ | _
      · exact absurd rfl hne
      · rfl
    rw [create_excel_report, hallF]
    simp only [Bool.false_eq_true, if_false, List.append_nil, List.map_append]
    congr 1
    · rw [hMain]
      by_cases h : (l.filter (fun r => bucketOf (origURL r) = "Main")).isEmpty <;>
        simp [h, data_sheet]
    · rw [List.map_filterMap]
      apply List.filterMap_congr
      intro c hc
      rw [getBucket_categorize l c.1 (cat_name_mem c hc)]
      by_cases h : (l.filter (fun r => bucketOf (origURL r) = c.1)).isEmpty
      · simp [h]
      · simp [h, data_sheet, pySlice31 c hc]
  · intro s hs
    rw [create_excel_report] at hs
    rcases List.mem_append.mp hs with hs' | hs'
    · rcases List.mem_append.mp hs' with hm | hcat
      · by_cases h : (getBucket (categorize_data l) "Main").isEmpty
        · rw [if_pos h] at hm
          exact absurd hm (List.not_mem_nil s)
        · rw [if_neg h] at hm
          right
          rw [List.mem_singleton] at hm
          have hM := getBucket_categorize l "Main" (by decide)
          refine ⟨"Main", by decide, ?_, ?_, ?_, ?_⟩
          · rw [hm, hM]
          · rw [← hM]
            simpa [List.isEmpty_iff] using h
          · rw [hm, hM, data_sheet]
            simp
          · rw [hm, data_sheet]
            rfl
      · obtain ⟨c, hc, hf⟩ := List.mem_filterMap.mp hcat
        by_cases h : (getBucket (categorize_data l) c.1).isEmpty
        · rw [if_pos h] at hf
          exact absurd hf (by simp)
        · rw [if_neg h] at hf
          right
          have hC := getBucket_categorize l c.1 (cat_name_mem c hc)
          refine ⟨c.1, cat_name_mem c hc, ?_, ?_, ?_, ?_⟩
          · rw [← Option.some_inj.mp hf, hC, pySlice31 c hc]
          · rw [← hC]
            simpa [List.isEmpty_iff] using h
          · rw [← Option.some_inj.mp hf, hC, data_sheet]
            simp
          · rw [← Option.some_inj.mp hf, data_sheet]
            rfl
    · by_cases h : (categorize_data l).all (fun e => e.2.isEmpty)
      · rw [if_pos h] at hs'
        rw [List.mem_singleton] at hs'
        exact Or.inl hs'
      · rw [if_neg h] at hs'
        exact absurd hs' (List.not_mem_nil s)
  · intro h
    subst h
    decide
  · intro item
    simp [row_of, columns_order]

/-- C8 witness: one Team-page record produces exactly the Team sheet, with a
header row and one data row. -/
theorem claim8_witness :
    (create_excel_report (categorize_data
        [[("Original URL", CellVal.str "https://example.com/team/bob")]])).map Sheet.title =
      ["Team"] ∧
    create_excel_report (categorize_data ([] : List Rec)) = [info_sheet] :=
  ⟨((claim8_report_sheets
        [[("Original URL", CellVal.str "https://example.com/team/bob")]]).1
      (by decide)).trans (by decide),
   (claim8_report_sheets ([] : List Rec)).2.2.1 rfl⟩

/-- C9 (amended): the meta-description field is built from the `<meta>` tags
whose name attribute is exactly one of the three spellings 'description',
'Description', 'DESCRIPTION' — not an arbitrary capitalization — with each
content trimmed and blank contents excluded from the count. -/
theorem claim9_description_matching (s : Soup) :
    meta_descriptions s = s.metas.filterMap (fun m =>
      if (m.name = some "description" ∨ m.name = some "Description" ∨
          m.name = some "DESCRIPTION") ∧ pyStrip (m.content.getD "") ≠ "" then
        some (pyStrip (m.content.getD "")) else none) ∧
    meta_descriptions ⟨none, [⟨some "Description", some " hello "⟩], [], []⟩ = ["hello"] ∧
    meta_descriptions ⟨none, [⟨some "DESCRIPTION", some ""⟩], [], []⟩ = [] := by
  refine ⟨?_, by decide, by decide⟩
  rw [meta_descriptions, List.filterMap_filter]
  apply List.filterMap_congr
  intro m _
  by_cases hn : m.name = some "description" ∨ m.name = some "Description" ∨
      m.name = some "DESCRIPTION"
  · by_cases hc : pyStrip (m.content.getD "") = "" <;>
      simp [hn, hc]
  · simp [hn]

/-- C9 counterexample: a `<meta name="DeScription">` tag with non-blank
content is a case-insensitive match for "description", yet contributes
nothing — the rendered field is empty instead of its trimmed value. -/
theorem claim9_counterexample :
    meta_descriptions ⟨none, [⟨some "DeScription", some " hello "⟩], [], []⟩ = [] ∧
    final_description ⟨none, [⟨some "DeScription", some " hello "⟩], [], []⟩ = "" ∧
    pyStrip " hello " = "hello" ∧
    ("hello" : String) ≠ "" := by
  exact ⟨by decide, by decide, by decide, by decide⟩

/-- C9 witness: the matching theorem instantiated on a page carrying all
three accepted spellings plus a blank one. -/
theorem claim9_witness :
    meta_descriptions ⟨none,
      [⟨some "description", some "a"⟩, ⟨some "Description", some " b "⟩,
       ⟨some "DESCRIPTION", some "c"⟩, ⟨some "description", some "  "⟩], [], []⟩ =
      ["a", "b", "c"] :=
  ((claim9_description_matching ⟨none,
      [⟨some "description", some "a"⟩, ⟨some "Description", some " b "⟩,
       ⟨some "DESCRIPTION", some "c"⟩, ⟨some "description", some "  "⟩], [], []⟩).1).trans
    (by decide)

/-- C10: process_url is a total function whose record has exactly the nine
report columns, in the report's column order, and when every attempt fails
the Final URL field keeps the original URL. -/
theorem claim10_record_shape (url : String) (attempts : Nat → FetchResult) :
    (process_url url attempts).map Prod.fst = columns_order ∧
    ((∀ i, i < RETRY_ATTEMPTS → attempts i = FetchResult.failure) →
      rget (process_url url attempts) "Final URL" = .str url) := by
  constructor
  · simp [process_url, columns_order]
  · intro h
    simp [process_url, process_url_go_allfail attempts (h 0 (by decide)) (h 1 (by decide)),
      rget, List.lookup]

/-- C10 witness: the record-shape theorem instantiated on a concrete URL
with an always-failing network. -/
theorem claim10_witness :
    (process_url "https://example.com/b" (fun _ => FetchResult.failure)).map Prod.fst
      = columns_order ∧
    rget (process_url "https://example.com/b" (fun _ => FetchResult.failure)) "Final URL"
      = CellVal.str "https://example.com/b" :=
  ⟨(claim10_record_shape "https://example.com/b" (fun _ => FetchResult.failure)).1,
   (claim10_record_shape "https://example.com/b" (fun _ => FetchResult.failure)).2
     (fun _ _ => rfl)⟩

end SEO
